import Mathlib

/-!
Verification of the infosys-competitor-tracker core against its
natural-language specification.

The development shallowly embeds the Python modules the claims are about:

* `sentiment_analysis/utils/rate_limiter.py` (`RateLimiter`): time is
  modelled in deciseconds (tenths of a second), so the 60-second rolling
  window is `600` units and the `0.1 s` safety margin added to each sleep
  is `1` unit.  Every call to `datetime.now()` advances the clock by at
  least one tick (a real clock is strictly monotone at this resolution);
  the embedding makes each read advance it by exactly one tick, and
  `time.sleep(d)` advance it by exactly `d`.  The two deques become
  time-ordered lists with the head as the oldest entry.
* `sentiment_analysis/api/groq_client.py` (`GroqSentimentAnalyzer`):
  the remote chat-completion call is an oracle parameter
  (`RemoteOutcome`), either the content string of the first choice
  together with the optional reported token usage, or a raised
  transport/service exception carrying its message.  Texts are lists of
  characters so that Python's `str.strip()` is directly expressible.
  The wall-clock metadata fields (`response_time`, `timestamp`) are not
  modelled; no claim mentions them.
* `sentiment_analysis/database/db_manager.py` (`DatabaseManager`): the
  SQLite tables become lists of rows in insertion order.  `REAL` columns
  are idealised as `ℚ`; the string-to-number parsing helpers
  (`_parse_price` …) run before the inserted tuple is formed and no
  claim depends on them, so rows are modelled post-parse.  `review_id`
  and `product_asin` are modelled as the TEXT values every writer in the
  repository supplies (the scrapers default them to `""`, never NULL).
  `INSERT OR IGNORE` on the `reviews(review_id)` UNIQUE column, `INSERT
  OR REPLACE` on `products(product_asin)`, plain `INSERT` for
  `sentiment_analysis`, and the `LEFT JOIN … WHERE sa.id IS NULL` anti
  join of `get_unanalyzed_reviews` are modelled by their documented
  SQLite semantics.  `sentiment_analysis.review_id` has no NOT NULL or
  UNIQUE constraint, so it stays an `Option`.
* `sentiment_analysis/scraper/amazon_scraper.py`
  (`AmazonScraper.scrape_reviews`): the page fetch plus
  `find_all('div', {data-hook: review})` plus per-div `_parse_review`
  pipeline is an oracle from page numbers to `Option (List (Option α))`
  (`none` = `_get_page` returned `None`, the inner `Option` is
  `_parse_review`'s result); the pagination loop itself is embedded
  exactly.
-/

namespace CompetitorTracker

/-! ## RateLimiter (`sentiment_analysis/utils/rate_limiter.py`) -/

/-- The rolling window: 60 s = 600 deciseconds. -/
def windowLen : Nat := 600

/-- The safety margin added to every sleep: 0.1 s = 1 decisecond. -/
def sleepMargin : Nat := 1

/-- State of `RateLimiter`: the `request_times` deque (timestamps,
oldest first) and the `token_counts` deque of (timestamp, tokens) pairs. -/
structure RLState where
  requestTimes : List Nat
  tokenCounts : List (Nat × Nat)
deriving Repr, DecidableEq

/-- `_clean_old_entries` on the request deque: pop from the left while the
head is older than one minute (`t < now - 60s`, i.e. `t + 600 < now`). -/
def cleanRequests (now : Nat) (ts : List Nat) : List Nat :=
  ts.dropWhile (fun t => t + windowLen < now)

/-- `_clean_old_entries` on the token deque. -/
def cleanTokens (now : Nat) (tc : List (Nat × Nat)) : List (Nat × Nat) :=
  tc.dropWhile (fun p => p.1 + windowLen < now)

/-- `RateLimiter._clean_old_entries`: prune both deques at time `now`. -/
def cleanOldEntries (now : Nat) (st : RLState) : RLState :=
  ⟨cleanRequests now st.requestTimes, cleanTokens now st.tokenCounts⟩

/-- One iteration's clock movement in the `wait_if_needed` loop: read
the clock (`now + 1`), compute `wait = (oldest + window) - now`; if
positive, `time.sleep(wait + 0.1)`; then `_clean_old_entries` reads the
clock once more.  Returns the time at which that pruning happens. -/
def sleepAndRecheckTime (now oldest : Nat) : Nat :=
  let waitUntil := oldest + windowLen
  let nowRead := now + 1
  let afterSleep :=
    if nowRead < waitUntil then waitUntil + sleepMargin else nowRead
  afterSleep + 1

/-- The `while len(self.request_times) >= self.max_rpm` loop of
`wait_if_needed`, with `fuel` bounding the number of iterations the
embedding unfolds.  Each iteration sleeps out the oldest entry and
prunes at `sleepAndRecheckTime`.  The result is `some (return time,
state)`; `none` models the `IndexError` the Python raises when
`max_rpm = 0` forces indexing an empty deque (and is also returned on
fuel exhaustion, shown unreachable in `rl_wait_terminates_bounded`). -/
def waitLoop (maxRpm : Nat) : Nat → Nat → RLState → Option (Nat × RLState)
  | 0, now, st =>
    if st.requestTimes.length < maxRpm then some (now, st) else none
  | fuel + 1, now, st =>
    if st.requestTimes.length < maxRpm then some (now, st)
    else
      match st.requestTimes with
      | [] => none
      | oldest :: _ =>
        let ct := sleepAndRecheckTime now oldest
        waitLoop maxRpm fuel ct (cleanOldEntries ct st)

/-- `RateLimiter.wait_if_needed` at clock `now`: prune, then loop while
the request deque holds at least `max_rpm` entries.  Fuel one more than
the pruned queue length is always enough (`waitLoop_total`). -/
def wait_if_needed (maxRpm : Nat) (now : Nat) (st : RLState) :
    Option (Nat × RLState) :=
  let st0 := cleanOldEntries now st
  waitLoop maxRpm (st0.requestTimes.length + 1) now st0

/-- `RateLimiter.add_request(tokens_used)` at clock `now`. -/
def add_request (now : Nat) (tokensUsed : Nat) (st : RLState) : RLState :=
  { requestTimes := st.requestTimes ++ [now]
    tokenCounts :=
      if 0 < tokensUsed then st.tokenCounts ++ [(now, tokensUsed)]
      else st.tokenCounts }

/-- Sum of the token counts currently in the token deque. -/
def totalTokens (tc : List (Nat × Nat)) : Nat :=
  (tc.map (fun p => p.2)).sum

/-- The dictionary returned by `RateLimiter.get_current_usage`.  The two
`*Remaining` fields are integers because the Python computes
`max(0, limit - used)` over ints. -/
structure Usage where
  requestsUsed : Nat
  requestsRemaining : Int
  tokensUsed : Nat
  tokensRemaining : Int
deriving Repr, DecidableEq

/-- `RateLimiter.get_current_usage` at clock `now`. -/
def get_current_usage (maxRpm maxTpm : Nat) (now : Nat) (st : RLState) :
    Usage :=
  let st' := cleanOldEntries now st
  { requestsUsed := st'.requestTimes.length
    requestsRemaining := max 0 ((maxRpm : Int) - st'.requestTimes.length)
    tokensUsed := totalTokens st'.tokenCounts
    tokensRemaining := max 0 ((maxTpm : Int) - totalTokens st'.tokenCounts) }

/-! ## GroqSentimentAnalyzer (`sentiment_analysis/api/groq_client.py`) -/

/-- Python's `str.strip()` whitespace set, restricted to the ASCII
whitespace characters (space, tab, newline, carriage return, vertical
tab, form feed). -/
def isPySpace (c : Char) : Bool :=
  c == ' ' || c == '\t' || c == '\n' || c == '\r' ||
    c == Char.ofNat 11 || c == Char.ofNat 12

/-- Python's `s.strip()`: drop leading and trailing whitespace. -/
def pyStrip (s : List Char) : List Char :=
  ((s.dropWhile isPySpace).reverse.dropWhile isPySpace).reverse

/-- Python's `s.upper()` on the characters the classifier can emit. -/
def pyUpper (s : List Char) : List Char :=
  s.map Char.toUpper

/-- `Config.SENTIMENT_LABELS = ["POSITIVE", "NEGATIVE", "NEUTRAL"]`. -/
def SENTIMENT_LABELS : List (List Char) :=
  ["POSITIVE".data, "NEGATIVE".data, "NEUTRAL".data]

/-- Oracle for the remote chat-completion call made inside the `try`
block of `analyze_sentiment`: either it returns, with the content of the
first choice and the optional `response.usage.total_tokens`, or it
raises an exception with a message. -/
inductive RemoteOutcome where
  | success (content : List Char) (usage : Option Nat)
  | failure (errMsg : List Char)
deriving Repr, DecidableEq

/-- The dictionary `analyze_sentiment` returns (the wall-clock
`response_time` / `timestamp` metadata is not modelled). -/
structure AnalysisResult where
  sentiment : List Char
  confidence : ℚ
  error : Option (List Char)
  tokensUsed : Option Nat
deriving Repr, DecidableEq

/-- Which side effects a call to `analyze_sentiment` performed on the
rate limiter and the network. -/
structure Effects where
  waited : Bool
  calledRemote : Bool
  recordedRequest : Bool
  recordedTokens : Option Nat
deriving Repr, DecidableEq

/-- The `{sentiment: NEUTRAL, confidence: 0, error: "Review too short"}`
early return. -/
def tooShortResult : AnalysisResult :=
  ⟨"NEUTRAL".data, 0, some "Review too short".data, none⟩

/-- No rate-limiter interaction and no remote call. -/
def noEffects : Effects :=
  ⟨false, false, false, none⟩

/-- `GroqSentimentAnalyzer.analyze_sentiment(review_text)`, with the
remote call abstracted by `remote`.  Follows the source line by line:
the `if not review_text or len(review_text.strip()) < 10` early return;
otherwise `rate_limiter.wait_if_needed()`, the remote call, then
`sentiment = content.strip().upper()`, coercion to `"NEUTRAL"` when the
label is not in `Config.SENTIMENT_LABELS`, `tokens_used =
response.usage.total_tokens if response.usage else 100`, and
`rate_limiter.add_request(tokens_used)`; any exception is caught and
degraded to a NEUTRAL result carrying the message. -/
def analyze_sentiment (text : List Char) (remote : RemoteOutcome) :
    AnalysisResult × Effects :=
  if text.isEmpty || (pyStrip text).length < 10 then
    (tooShortResult, noEffects)
  else
    match remote with
    | .failure msg =>
      (⟨"NEUTRAL".data, 0, some msg, none⟩, ⟨true, true, false, none⟩)
    | .success content usage =>
      let raw := pyUpper (pyStrip content)
      let sentiment :=
        if SENTIMENT_LABELS.contains raw then raw else "NEUTRAL".data
      let tokens := usage.getD 100
      (⟨sentiment, (95 : ℚ) / 100, none, some tokens⟩,
        ⟨true, true, true, some tokens⟩)

/-- `GroqSentimentAnalyzer.analyze_batch`: the chunking by `batch_size`
only drives logging and inter-request sleeps; the returned list is the
concatenation of the per-review results in order. -/
def analyze_batch (inputs : List (List Char × RemoteOutcome)) :
    List AnalysisResult :=
  inputs.map (fun p => (analyze_sentiment p.1 p.2).1)

/-! ## DatabaseManager (`sentiment_analysis/database/db_manager.py`) -/

/-- A row of the `products` table, post-parse (the tuple bound by the
`INSERT OR REPLACE` statement of `insert_product`; the autoincrement
`id` and the `created_at` default are bookkeeping no claim reads). -/
structure ProductRow where
  productAsin : String
  productName : Option String
  brand : Option String
  price : Option ℚ
  mrp : Option ℚ
  discount : Option String
  stockStatus : Option String
  rating : Option ℚ
  reviewCount : Option Int
  seller : Option String
  productLink : Option String
  reviewsLink : Option String
  scrapedAt : Option String
  updatedAt : Nat
deriving Repr, DecidableEq

/-- A row of the `reviews` table (tuple bound by `insert_reviews`). -/
structure ReviewRow where
  productAsin : Option String
  reviewId : String
  reviewerName : Option String
  rating : Option ℚ
  title : Option String
  text : Option String
  date : Option String
  verifiedPurchase : Bool
  helpfulCount : Nat
  scrapedAt : Option String
deriving Repr, DecidableEq

/-- A row of the `sentiment_analysis` table (tuple bound by
`insert_sentiment_results`; `review_id` has no NOT NULL constraint). -/
structure SentimentRow where
  reviewId : Option String
  sentiment : Option String
  confidence : Option ℚ
  responseTime : Option ℚ
  tokensUsed : Option Nat
  analyzedAt : Option String
  error : Option String
deriving Repr, DecidableEq

/-- The three tables of the SQLite store, rows in insertion order. -/
structure DB where
  products : List ProductRow
  reviews : List ReviewRow
  sentiments : List SentimentRow
deriving Repr, DecidableEq

/-- `DatabaseManager.insert_product`: `INSERT OR REPLACE` keyed on the
`product_asin` UNIQUE column — a conflicting row is deleted and the new
tuple inserted (fresh rowid, so it lands at the end). -/
def insert_product (db : DB) (row : ProductRow) : DB :=
  { db with
    products :=
      db.products.filter (fun p => !(p.productAsin == row.productAsin))
        ++ [row] }

/-- The `for review in reviews` loop of `insert_reviews`: `INSERT OR
IGNORE` keyed on the `review_id` UNIQUE column, counting the rows whose
`cursor.rowcount` was positive (i.e. actually inserted). -/
def insertReviewsAux : List ReviewRow → DB → Nat → DB × Nat
  | [], db, n => (db, n)
  | rv :: rest, db, n =>
    if db.reviews.any (fun r => r.reviewId == rv.reviewId) then
      insertReviewsAux rest db n
    else
      insertReviewsAux rest { db with reviews := db.reviews ++ [rv] } (n + 1)

/-- `DatabaseManager.insert_reviews`: bulk insert-or-ignore, returning
the new store and the number of rows actually inserted. -/
def insert_reviews (db : DB) (rows : List ReviewRow) : DB × Nat :=
  insertReviewsAux rows db 0

/-- `DatabaseManager.insert_sentiment_results`: plain `INSERT`, always
appends, counts every row written. -/
def insert_sentiment_results (db : DB) (rows : List SentimentRow) :
    DB × Nat :=
  ({ db with sentiments := db.sentiments ++ rows }, rows.length)

/-- Does `review_id` have at least one row in `sentiment_analysis`?
(The SQL join condition `r.review_id = sa.review_id` is NULL-rejecting,
so a NULL `sa.review_id` matches nothing.) -/
def hasSentiment (db : DB) (rid : String) : Bool :=
  db.sentiments.any (fun sa => sa.reviewId == some rid)

/-- The projection `SELECT r.review_id, r.text, r.product_asin`. -/
structure UnanalyzedReview where
  reviewId : String
  text : Option String
  productAsin : Option String
deriving Repr, DecidableEq

/-- The row filter of `get_unanalyzed_reviews`: no `sentiment_analysis`
row joins it (`sa.id IS NULL`), and `r.text IS NOT NULL AND r.text != ''`. -/
def unanalyzedPred (db : DB) (r : ReviewRow) : Bool :=
  !(hasSentiment db r.reviewId) && !(r.text == none) && !(r.text == some "")

/-- `DatabaseManager.get_unanalyzed_reviews(limit)`: left anti join of
`reviews` against `sentiment_analysis` on `review_id`, filtered to
non-NULL non-empty text, projected, in store order, `LIMIT limit`. -/
def get_unanalyzed_reviews (db : DB) (limit : Nat) :
    List UnanalyzedReview :=
  (((db.reviews.filter (unanalyzedPred db)).map
    (fun r => ⟨r.reviewId, r.text, r.productAsin⟩ : ReviewRow → UnanalyzedReview)).take limit)

/-! ## AmazonScraper.scrape_reviews (`sentiment_analysis/scraper/amazon_scraper.py`) -/

/-- The `for page in range(1, max_pages + 1)` loop of `scrape_reviews`,
parameterised by the page oracle: `pages p = none` models
`_get_page` returning `None` (network failure); `pages p = some divs`
models the list of `find_all('div', {'data-hook': 'review'})` hits, each
carrying `_parse_review`'s `Option` result.  `p` is the next page
number, the second argument the pages still allowed. -/
def scrapeReviewsAux {α : Type} (pages : Nat → Option (List (Option α))) :
    Nat → Nat → List α
  | _, 0 => []
  | p, n + 1 =>
    match pages p with
    | none => []
    | some divs =>
      if divs.isEmpty then []
      else divs.filterMap id ++ scrapeReviewsAux pages (p + 1) n

/-- `AmazonScraper.scrape_reviews(product_url, max_pages)` after ASIN
extraction: sequential pages from 1, stop on fetch failure or on a page
with zero review blocks or after `maxPages` pages. -/
def scrape_reviews {α : Type} (pages : Nat → Option (List (Option α)))
    (maxPages : Nat) : List α :=
  scrapeReviewsAux pages 1 maxPages

/-- The reviews one fetched page contributes. -/
def pageReviews {α : Type} : Option (List (Option α)) → List α
  | none => []
  | some divs => divs.filterMap id

/-! ## RateLimiter lemmas -/

/-- Pruning the request deque yields a sublist (suffix) of it. -/
theorem cleanRequests_sublist (now : Nat) (ts : List Nat) :
    List.Sublist (cleanRequests now ts) ts :=
  List.dropWhile_sublist _

/-- The pruning time of one loop iteration lies strictly past the oldest
entry's expiry. -/
theorem sleepAndRecheckTime_gt (now oldest : Nat) :
    oldest + windowLen < sleepAndRecheckTime now oldest := by
  simp only [sleepAndRecheckTime, sleepMargin]
  split <;> omega

/-- The pruning time of one loop iteration is at most two ticks past
`now` or two ticks past the oldest entry's expiry-plus-margin. -/
theorem sleepAndRecheckTime_le (now oldest T : Nat) (h : oldest ≤ T) :
    sleepAndRecheckTime now oldest ≤ max (now + 2) (T + windowLen + 2) := by
  simp only [sleepAndRecheckTime, sleepMargin]
  split <;> omega

/-- An expired head is dropped by pruning and the tail prunes on. -/
theorem cleanRequests_cons_expired (now oldest : Nat) (rest : List Nat)
    (h : oldest + windowLen < now) :
    cleanRequests now (oldest :: rest) = cleanRequests now rest := by
  simp [cleanRequests, List.dropWhile_cons, h]

/-- The wait loop only ever returns a state whose request deque is
strictly under `max_rpm`. -/
theorem waitLoop_requests_lt (maxRpm : Nat) :
    ∀ fuel now st now' st',
      waitLoop maxRpm fuel now st = some (now', st') →
      st'.requestTimes.length < maxRpm := by
  intro fuel
  induction fuel with
  | zero =>
    intro now st now' st' h
    by_cases hlt : st.requestTimes.length < maxRpm
    · simp only [waitLoop, if_pos hlt, Option.some.injEq, Prod.mk.injEq] at h
      rw [← h.2]
      exact hlt
    · simp [waitLoop, if_neg hlt] at h
  | succ n ih =>
    intro now st now' st' h
    by_cases hlt : st.requestTimes.length < maxRpm
    · simp only [waitLoop, if_pos hlt, Option.some.injEq, Prod.mk.injEq] at h
      rw [← h.2]
      exact hlt
    · cases hcons : st.requestTimes with
      | nil =>
        rw [hcons] at hlt
        simp only [List.length_nil] at hlt
        have hz : maxRpm = 0 := by omega
        subst hz
        simp [waitLoop, hcons] at h
      | cons oldest rest =>
        rw [hcons] at hlt
        simp only [waitLoop, hcons, if_neg hlt] at h
        exact ih _ _ _ _ h

/-- Termination with an explicit clock bound: when every recorded
timestamp is at most `T` and the fuel covers the queue length, the loop
returns, strictly under the request budget, and no later than the
expiry of the whole window plus bookkeeping ticks. -/
theorem waitLoop_bounded (maxRpm T : Nat) (hm : 1 ≤ maxRpm) :
    ∀ fuel now st,
      st.requestTimes.length ≤ fuel →
      (∀ t ∈ st.requestTimes, t ≤ T) →
      ∃ now' st',
        waitLoop maxRpm fuel now st = some (now', st') ∧
        now' ≤ max now (T + windowLen + 2) + 2 * fuel ∧
        st'.requestTimes.length < maxRpm := by
  intro fuel
  induction fuel with
  | zero =>
    intro now st hlen hts
    have hlt : st.requestTimes.length < maxRpm := by omega
    exact ⟨now, st, by simp [waitLoop, hlt], by omega, hlt⟩
  | succ n ih =>
    intro now st hlen hts
    by_cases hlt : st.requestTimes.length < maxRpm
    · exact ⟨now, st, by simp [waitLoop, hlt], by omega, hlt⟩
    · cases hcons : st.requestTimes with
      | nil =>
        exfalso
        rw [hcons] at hlt
        simp at hlt
        omega
      | cons oldest rest =>
        have holdest : oldest ≤ T := hts oldest (by rw [hcons]; exact List.mem_cons_self _ _)
        have hct := sleepAndRecheckTime_le now oldest T holdest
        have hexp := sleepAndRecheckTime_gt now oldest
        have hclean :
            (cleanOldEntries (sleepAndRecheckTime now oldest) st).requestTimes =
              cleanRequests (sleepAndRecheckTime now oldest) rest := by
          simp only [cleanOldEntries, hcons]
          exact cleanRequests_cons_expired _ _ _ hexp
        have hlen' :
            (cleanOldEntries (sleepAndRecheckTime now oldest) st).requestTimes.length ≤ n := by
          rw [hclean]
          have h1 := (cleanRequests_sublist (sleepAndRecheckTime now oldest) rest).length_le
          have h2 : rest.length + 1 ≤ n + 1 := by
            rw [hcons] at hlen
            simpa using hlen
          omega
        have hts' :
            ∀ t ∈ (cleanOldEntries (sleepAndRecheckTime now oldest) st).requestTimes, t ≤ T := by
          intro t ht
          rw [hclean] at ht
          have : t ∈ rest := (cleanRequests_sublist _ rest).subset ht
          exact hts t (by rw [hcons]; exact List.mem_cons_of_mem _ this)
        obtain ⟨now', st', heq, hb, hlt'⟩ :=
          ih (sleepAndRecheckTime now oldest) (cleanOldEntries (sleepAndRecheckTime now oldest) st) hlen' hts'
        refine ⟨now', st', ?_, by omega, hlt'⟩
        have hlt2 : ¬(oldest :: rest).length < maxRpm := by
          rw [← hcons]
          exact hlt
        simp only [waitLoop, hcons, if_neg hlt2]
        exact heq

/-- C9: `RateLimiter.wait_if_needed` always terminates (given
`max_rpm ≥ 1` and a clock that is not behind any recorded timestamp),
each sleep in its loop is at most the 60-second window plus the safety
margin — so the return time is bounded by the expiry of the whole
current window, `now + (600 + 4) + 2·(queue length)` deciseconds, the
`4 + 2·len` being single clock ticks — and the loop exits with the
request deque strictly under `max_rpm`.
-/
theorem rl_wait_terminates_bounded (maxRpm now : Nat) (st : RLState)
    (hm : 1 ≤ maxRpm) (hts : ∀ t ∈ st.requestTimes, t ≤ now) :
    ∃ now' st',
      wait_if_needed maxRpm now st = some (now', st') ∧
      now' ≤ now + (windowLen + 4) + 2 * st.requestTimes.length ∧
      st'.requestTimes.length < maxRpm := by
  have hsub := cleanRequests_sublist now st.requestTimes
  have hlen0 : (cleanOldEntries now st).requestTimes.length ≤ st.requestTimes.length :=
    hsub.length_le
  obtain ⟨now', st', heq, hb, hlt⟩ :=
    waitLoop_bounded maxRpm now hm ((cleanOldEntries now st).requestTimes.length + 1)
      now (cleanOldEntries now st) (by omega)
      (fun t ht => hts t (hsub.subset ht))
  exact ⟨now', st', heq, by omega, hlt⟩

/--
Witness for C9 at a concrete over-budget state: `max_rpm = 2`, clock
`1000`, three recorded requests at `500`, `900`, `950`; the call sleeps
out the two oldest entries and returns at `1502 ≤ 1000 + 604 + 6`.
-/
theorem rl_wait_terminates_bounded_witness :
    ∃ now' st',
      wait_if_needed 2 1000 ⟨[500, 900, 950], []⟩ = some (now', st') ∧
      now' ≤ 1000 + (windowLen + 4) + 2 * ([500, 900, 950] : List Nat).length ∧
      st'.requestTimes.length < 2 :=
  rl_wait_terminates_bounded 2 1000 ⟨[500, 900, 950], []⟩ (by decide) (by decide)

/-- C1 counterexample: With the `Config` defaults `max_rpm = 30`,
`max_tpm = 6000`, a state holding one unexpired request that recorded
`10000` tokens is admitted immediately by `wait_if_needed` even though
the cumulative unexpired token count (10000) is *not* below the token
budget: `wait_if_needed` never consults the token deque.
-/
theorem rl_wait_ignores_token_budget :
    wait_if_needed 30 1000 ⟨[1000], [(1000, 10000)]⟩ =
      some (1000, ⟨[1000], [(1000, 10000)]⟩) ∧
    6000 ≤ totalTokens ([(1000, 10000)] : List (Nat × Nat)) := by
  constructor
  · rfl
  · decide

/-- C1 amended: `wait_if_needed` returns only when the number of
unexpired recorded requests is strictly below the maximum request
count; the token budget is not checked at admission time (token
accounting is post-hoc via `add_request`), so only the request budget
is guaranteed at admission.
-/
theorem rl_wait_respects_request_budget (maxRpm now : Nat) (st : RLState)
    (now' : Nat) (st' : RLState)
    (h : wait_if_needed maxRpm now st = some (now', st')) :
    st'.requestTimes.length < maxRpm :=
  waitLoop_requests_lt maxRpm _ now (cleanOldEntries now st) now' st' h

/-- Witness for the amended C1: the admitted state of the concrete call
above holds 1 < 30 unexpired requests. -/
theorem rl_wait_respects_request_budget_witness :
    (RLState.mk [1000] [(1000, 10000)]).requestTimes.length < 30 :=
  rl_wait_respects_request_budget 30 1000 ⟨[1000], [(1000, 10000)]⟩
    1000 ⟨[1000], [(1000, 10000)]⟩ (by rfl)

/-- C10: `get_current_usage` clamps both remaining budgets at zero
(`max(0, limit - used)`), reports the actual unexpired request count
and token sum, and those used figures can exceed the maxima — shown at
a pruned window with 2 requests against `max_rpm = 1` and 10000 tokens
against `max_tpm = 6000`, where both remaining figures clamp to 0.
-/
theorem rl_usage_clamped (maxRpm maxTpm now : Nat) (st : RLState) :
    0 ≤ (get_current_usage maxRpm maxTpm now st).requestsRemaining ∧
    0 ≤ (get_current_usage maxRpm maxTpm now st).tokensRemaining ∧
    (get_current_usage maxRpm maxTpm now st).requestsUsed =
      (cleanOldEntries now st).requestTimes.length ∧
    (get_current_usage maxRpm maxTpm now st).tokensUsed =
      totalTokens (cleanOldEntries now st).tokenCounts ∧
    (get_current_usage 1 6000 1000 ⟨[900, 950], [(990, 10000)]⟩).requestsUsed = 2 ∧
    (get_current_usage 1 6000 1000 ⟨[900, 950], [(990, 10000)]⟩).requestsRemaining = 0 ∧
    (get_current_usage 1 6000 1000 ⟨[900, 950], [(990, 10000)]⟩).tokensUsed = 10000 ∧
    (get_current_usage 1 6000 1000 ⟨[900, 950], [(990, 10000)]⟩).tokensRemaining = 0 :=
  ⟨le_max_left 0 _, le_max_left 0 _, rfl, rfl, by decide, by decide, by decide, by decide⟩

/-! ## GroqSentimentAnalyzer theorems -/

/-- C2 counterexample: The short-review gate tests the *stripped*
length, not the raw length: the 10-character text `"short     "` has
length ≥ 10, yet `analyze_sentiment` returns the too-short NEUTRAL
result with no rate-limiter interaction and no remote call.
-/
theorem analyze_gate_uses_stripped_length :
    ("short     ".data).length = 10 ∧
    analyze_sentiment "short     ".data (.success "POSITIVE".data (some 50)) =
      (tooShortResult, noEffects) := by
  constructor
  · decide
  · decide

/-- C2 amended: `analyze_sentiment` returns
`{sentiment: NEUTRAL, confidence: 0, error: "Review too short"}` with no
rate-limiter interaction and no remote call exactly when the
whitespace-stripped input has fewer than 10 characters (an empty text
strips to length 0); whenever the stripped length is at least 10 it
calls `rate_limiter.wait_if_needed()` and invokes the remote service.
-/
theorem analyze_short_circuit (text : List Char) (remote : RemoteOutcome) :
    ((pyStrip text).length < 10 →
      analyze_sentiment text remote = (tooShortResult, noEffects)) ∧
    (10 ≤ (pyStrip text).length →
      (analyze_sentiment text remote).2.waited = true ∧
      (analyze_sentiment text remote).2.calledRemote = true) := by
  constructor
  · intro h
    simp [analyze_sentiment, h]
  · intro h
    have hne : text.isEmpty = false := by
      cases text with
      | nil => simp [pyStrip, isPySpace] at h
      | cons c cs => rfl
    have hnlt : ¬(pyStrip text).length < 10 := by omega
    cases remote with
    | failure msg => simp [analyze_sentiment, hne, hnlt]
    | success content usage => simp [analyze_sentiment, hne, hnlt]

/-- Witness for the amended C2: the 2-character text `"hi"` is rejected
without effects, and a 19-character text reaches the rate limiter and
the remote call. -/
theorem analyze_short_circuit_witness :
    analyze_sentiment "hi".data (.failure "boom".data) = (tooShortResult, noEffects) ∧
    (analyze_sentiment "this is long enough".data (.failure "boom".data)).2.waited = true ∧
    (analyze_sentiment "this is long enough".data (.failure "boom".data)).2.calledRemote = true :=
  ⟨(analyze_short_circuit "hi".data (.failure "boom".data)).1 (by decide),
   ((analyze_short_circuit "this is long enough".data (.failure "boom".data)).2 (by decide)).1,
   ((analyze_short_circuit "this is long enough".data (.failure "boom".data)).2 (by decide)).2⟩

/-- C6: Any classifier reply whose validated form
(`content.strip().upper()`) is outside
`{POSITIVE, NEGATIVE, NEUTRAL}` is coerced to NEUTRAL (never rejected,
never re-tried), and every result `analyze_sentiment` returns — the
successful ones in particular — carries a sentiment from the closed
set.
-/
theorem analyze_label_closed (text content : List Char) (usage : Option Nat)
    (remote : RemoteOutcome) :
    (SENTIMENT_LABELS.contains (pyUpper (pyStrip content)) = false →
      (analyze_sentiment text (.success content usage)).1.sentiment = "NEUTRAL".data) ∧
    SENTIMENT_LABELS.contains (analyze_sentiment text remote).1.sentiment = true := by
  constructor
  · intro h
    by_cases hshort : (text.isEmpty || decide ((pyStrip text).length < 10)) = true
    · simp [analyze_sentiment, hshort, tooShortResult]
    · have hmem : pyUpper (pyStrip content) ∉ SENTIMENT_LABELS := by
        simpa using h
      simp [analyze_sentiment, hshort, hmem]
  · by_cases hshort : (text.isEmpty || decide ((pyStrip text).length < 10)) = true
    · simp only [analyze_sentiment, hshort, if_true]
      decide
    · cases remote with
      | failure msg =>
        simp only [analyze_sentiment, hshort, Bool.false_eq_true, if_false]
        decide
      | success c u =>
        simp only [analyze_sentiment, hshort, Bool.false_eq_true, if_false]
        cases hc : SENTIMENT_LABELS.contains (pyUpper (pyStrip c)) with
        | false =>
          simp only [hc, Bool.false_eq_true, if_false]
          decide
        | true =>
          simp only [hc, if_true]

/-- Witness for C6: the reply `" maybe "` validates to `"MAYBE"`, which
is outside the closed set and is coerced to NEUTRAL; the same call's
result is in the closed set. -/
theorem analyze_label_closed_witness :
    (analyze_sentiment "this is long enough".data
        (.success " maybe ".data (some 7))).1.sentiment = "NEUTRAL".data ∧
    SENTIMENT_LABELS.contains
      (analyze_sentiment "this is long enough".data
        (.success " maybe ".data (some 7))).1.sentiment = true :=
  ⟨(analyze_label_closed "this is long enough".data " maybe ".data (some 7)
      (.success " maybe ".data (some 7))).1 (by decide),
   (analyze_label_closed "this is long enough".data " maybe ".data (some 7)
      (.success " maybe ".data (some 7))).2⟩

/-- C7: `analyze_sentiment` is a total function of the remote outcome:
when the remote call raises (any transport/service error, message
`msg`), the call still returns normally with
`{sentiment: NEUTRAL, confidence: 0, error: msg}` and records no
rate-limiter request, and a batch containing such inputs still yields
one result per input.
-/
theorem analyze_degrades_errors (text msg : List Char)
    (inputs : List (List Char × RemoteOutcome)) :
    (10 ≤ (pyStrip text).length →
      analyze_sentiment text (.failure msg) =
        (⟨"NEUTRAL".data, 0, some msg, none⟩, ⟨true, true, false, none⟩)) ∧
    (analyze_batch inputs).length = inputs.length := by
  constructor
  · intro h
    have hne : text.isEmpty = false := by
      cases text with
      | nil => simp [pyStrip, isPySpace] at h
      | cons c cs => rfl
    have hnlt : ¬(pyStrip text).length < 10 := by omega
    simp [analyze_sentiment, hne, hnlt]
  · simp [analyze_batch]

/-- Witness for C7: a timeout on a 19-character review degrades to a
NEUTRAL result carrying the message, and a 3-element batch with a
failing middle element still yields 3 results. -/
theorem analyze_degrades_errors_witness :
    analyze_sentiment "this is long enough".data (.failure "Request timed out".data) =
      (⟨"NEUTRAL".data, 0, some "Request timed out".data, none⟩,
        ⟨true, true, false, none⟩) ∧
    (analyze_batch
      [("this is long enough".data, .success "POSITIVE".data (some 9)),
       ("this is long enough".data, .failure "Request timed out".data),
       ("hi".data, .success "NEGATIVE".data none)]).length = 3 :=
  ⟨(analyze_degrades_errors "this is long enough".data "Request timed out".data []).1
      (by decide),
   (analyze_degrades_errors "x".data "y".data
      [("this is long enough".data, .success "POSITIVE".data (some 9)),
       ("this is long enough".data, .failure "Request timed out".data),
       ("hi".data, .success "NEGATIVE".data none)]).2⟩

/-! ## DatabaseManager theorems -/

/-- A review row as the scenarios store it. -/
def scenarioReview (rid txt : String) : ReviewRow :=
  ⟨some "B0TEST", rid, none, some 4, none, some txt, none, false, 0, none⟩

/-- A sentiment row for `rid` as the scenarios append it. -/
def scenarioSentiment (rid : String) : SentimentRow :=
  ⟨some rid, some "POSITIVE", some ((95 : ℚ) / 100), none, some 20, none, none⟩

/-- Three stored reviews, the first two already analyzed. -/
def scenarioDb : DB :=
  ⟨[],
   [scenarioReview "r1" "first review, quite satisfied",
    scenarioReview "r2" "second review, unhappy",
    scenarioReview "r3" "third review, mixed bag"],
   [scenarioSentiment "r1", scenarioSentiment "r2"]⟩

/-- A stored review whose `text` column is the empty string. -/
def emptyTextReview : ReviewRow :=
  ⟨some "B0TEST", "r9", none, some 4, none, some "", none, false, 0, none⟩

/-- A store holding only `emptyTextReview` and no sentiment rows. -/
def emptyTextDb : DB :=
  ⟨[], [emptyTextReview], []⟩

/-- C3 counterexample: `get_unanalyzed_reviews` does *not* return
every stored review lacking a `sentiment_analysis` row: the query also
filters on `r.text IS NOT NULL AND r.text != ''`, so the stored review
`"r9"` with empty text and no sentiment row is absent from
`get_unanalyzed_reviews(10)`.
-/
theorem unanalyzed_misses_empty_text :
    emptyTextReview ∈ emptyTextDb.reviews ∧
    hasSentiment emptyTextDb "r9" = false ∧
    get_unanalyzed_reviews emptyTextDb 10 = [] := by
  refine ⟨?_, ?_, ?_⟩
  · decide
  · decide
  · decide

/-- C3 amended: `get_unanalyzed_reviews(limit)` returns at most
`limit` records, never a review id that already has a
`sentiment_analysis` row, and every stored review *with non-NULL,
non-empty text* and no matching sentiment row whenever they all fit in
`limit`; in the 3-review scenario (all with non-empty text, two
analyzed) a call with limit 10 returns exactly the one unanalyzed
review, and after its result is appended a second call returns empty.
-/
theorem get_unanalyzed_spec (db : DB) (limit : Nat) :
    (get_unanalyzed_reviews db limit).length ≤ limit ∧
    (∀ u ∈ get_unanalyzed_reviews db limit, hasSentiment db u.reviewId = false) ∧
    (∀ r ∈ db.reviews, unanalyzedPred db r = true →
      (db.reviews.filter (unanalyzedPred db)).length ≤ limit →
      (⟨r.reviewId, r.text, r.productAsin⟩ : UnanalyzedReview) ∈
        get_unanalyzed_reviews db limit) ∧
    get_unanalyzed_reviews scenarioDb 10 =
      [⟨"r3", some "third review, mixed bag", some "B0TEST"⟩] ∧
    get_unanalyzed_reviews
      (insert_sentiment_results scenarioDb [scenarioSentiment "r3"]).1 10 = [] := by
  refine ⟨?_, ?_, ?_, by decide, by decide⟩
  · unfold get_unanalyzed_reviews
    rw [List.length_take]
    omega
  · intro u hu
    unfold get_unanalyzed_reviews at hu
    have hu' := List.take_subset _ _ hu
    obtain ⟨r, hr, rfl⟩ := List.mem_map.mp hu'
    have hp := (List.mem_filter.mp hr).2
    unfold unanalyzedPred at hp
    simp only [Bool.and_eq_true, Bool.not_eq_true'] at hp
    exact hp.1.1
  · intro r hr hpred hlen
    unfold get_unanalyzed_reviews
    have hmap :
        ((db.reviews.filter (unanalyzedPred db)).map
          (fun r => (⟨r.reviewId, r.text, r.productAsin⟩ : UnanalyzedReview))).length ≤ limit := by
      rw [List.length_map]
      exact hlen
    rw [List.take_of_length_le hmap]
    exact List.mem_map.mpr ⟨r, List.mem_filter.mpr ⟨hr, hpred⟩, rfl⟩

/-- Witness for the amended C3, at the 3-review scenario: the returned
record's id `"r3"` has no sentiment row, and `"r3"`'s projection is in
the result. -/
theorem get_unanalyzed_spec_witness :
    hasSentiment scenarioDb "r3" = false ∧
    (⟨"r3", some "third review, mixed bag", some "B0TEST"⟩ : UnanalyzedReview) ∈
      get_unanalyzed_reviews scenarioDb 10 :=
  ⟨(get_unanalyzed_spec scenarioDb 10).2.1
      ⟨"r3", some "third review, mixed bag", some "B0TEST"⟩ (by decide),
   (get_unanalyzed_spec scenarioDb 10).2.2.1
      (scenarioReview "r3" "third review, mixed bag") (by decide) (by decide) (by decide)⟩

/-- The `INSERT OR IGNORE` loop keeps `rows inserted = growth of the
table` as an invariant of its accumulator. -/
theorem insertReviewsAux_length :
    ∀ (rows : List ReviewRow) (db : DB) (n : Nat),
      (insertReviewsAux rows db n).1.reviews.length + n =
        (insertReviewsAux rows db n).2 + db.reviews.length := by
  intro rows
  induction rows with
  | nil =>
    intro db n
    simp only [insertReviewsAux]
    omega
  | cons rv rest ih =>
    intro db n
    cases hx : db.reviews.any (fun r => r.reviewId == rv.reviewId) with
    | true =>
      simp only [insertReviewsAux, hx, if_true]
      exact ih db n
    | false =>
      simp only [insertReviewsAux, hx, Bool.false_eq_true, if_false]
      have h2 := ih { db with reviews := db.reviews ++ [rv] } (n + 1)
      simp only [List.length_append, List.length_cons, List.length_nil] at h2
      omega

/-- The `INSERT OR IGNORE` loop preserves uniqueness of `review_id`
(the UNIQUE column invariant). -/
theorem insertReviewsAux_nodup :
    ∀ (rows : List ReviewRow) (db : DB) (n : Nat),
      (db.reviews.map (fun r => r.reviewId)).Nodup →
      ((insertReviewsAux rows db n).1.reviews.map (fun r => r.reviewId)).Nodup := by
  intro rows
  induction rows with
  | nil =>
    intro db n h
    simpa [insertReviewsAux] using h
  | cons rv rest ih =>
    intro db n h
    cases hx : db.reviews.any (fun r => r.reviewId == rv.reviewId) with
    | true =>
      simp only [insertReviewsAux, hx, if_true]
      exact ih db n h
    | false =>
      simp only [insertReviewsAux, hx, Bool.false_eq_true, if_false]
      apply ih
      rw [List.map_append, List.nodup_append]
      refine ⟨h, by simp, ?_⟩
      intro a ha hb
      simp only [List.map_cons, List.map_nil, List.mem_singleton] at hb
      subst hb
      obtain ⟨r, hr, hid⟩ := List.mem_map.mp ha
      have hall : ∀ x ∈ db.reviews, ¬(x.reviewId == rv.reviewId) = true := by
        simpa [List.any_eq_false] using hx
      exact hall r hr (by simp [hid])

/-- C4: `insert_reviews` is idempotent per review id: the returned
count equals the number of rows actually inserted; writing a review
whose id is already stored changes nothing and reports zero inserted;
if exactly one row had the id, exactly one row has it afterwards; and
uniqueness of `review_id` is preserved.
-/
theorem insert_reviews_idempotent (db : DB) (rows : List ReviewRow) (rv : ReviewRow) :
    (insert_reviews db rows).1.reviews.length =
      db.reviews.length + (insert_reviews db rows).2 ∧
    (db.reviews.any (fun r => r.reviewId == rv.reviewId) = true →
      insert_reviews db [rv] = (db, 0)) ∧
    (db.reviews.countP (fun r => r.reviewId == rv.reviewId) = 1 →
      (insert_reviews db [rv]).1.reviews.countP
        (fun r => r.reviewId == rv.reviewId) = 1) ∧
    ((db.reviews.map (fun r => r.reviewId)).Nodup →
      ((insert_reviews db rows).1.reviews.map (fun r => r.reviewId)).Nodup) := by
  refine ⟨?_, ?_, ?_, ?_⟩
  · have := insertReviewsAux_length rows db 0
    unfold insert_reviews
    omega
  · intro h
    simp [insert_reviews, insertReviewsAux, h]
  · intro h
    have hpos : 0 < db.reviews.countP (fun r => r.reviewId == rv.reviewId) := by
      omega
    obtain ⟨a, ha, hpa⟩ := List.countP_pos_iff.mp hpos
    have hany : db.reviews.any (fun r => r.reviewId == rv.reviewId) = true :=
      List.any_eq_true.mpr ⟨a, ha, hpa⟩
    rw [show insert_reviews db [rv] = (db, 0) from by
      simp [insert_reviews, insertReviewsAux, hany]]
    exact h
  · exact insertReviewsAux_nodup rows db 0

/-- The review row the C4 witness writes twice. -/
def reviewWrite : ReviewRow :=
  ⟨some "B0TEST", "RTEST1", some "alice", some 5, some "Great",
    some "Loved this product a lot", some "2024-03-03", true, 2,
    some "2024-03-04"⟩

/-- The store already holding `reviewWrite`. -/
def reviewDb : DB :=
  ⟨[], [reviewWrite], []⟩

/-- Witness for C4: re-inserting the stored review `"RTEST1"` leaves
the store unchanged, reports 0 inserted, keeps exactly one row with
that id, and keeps ids unique. -/
theorem insert_reviews_idempotent_witness :
    insert_reviews reviewDb [reviewWrite] = (reviewDb, 0) ∧
    (insert_reviews reviewDb [reviewWrite]).1.reviews.countP
      (fun r => r.reviewId == reviewWrite.reviewId) = 1 ∧
    ((insert_reviews reviewDb [reviewWrite]).1.reviews.map
      (fun r => r.reviewId)).Nodup :=
  ⟨(insert_reviews_idempotent reviewDb [reviewWrite] reviewWrite).2.1 (by decide),
   (insert_reviews_idempotent reviewDb [reviewWrite] reviewWrite).2.2.1 (by decide),
   (insert_reviews_idempotent reviewDb [reviewWrite] reviewWrite).2.2.2 (by decide)⟩

/-- C5: `insert_product` is last-write-wins per `product_asin`: after
two upserts with the same id the store holds exactly one row for that
id and its fields are exactly the second write's values (no merge) —
the filtered read-back is the singleton `[r2]`.
-/
theorem insert_product_last_write_wins (db : DB) (r1 r2 : ProductRow)
    (h : r1.productAsin = r2.productAsin) :
    (insert_product (insert_product db r1) r2).products.filter
        (fun p => p.productAsin == r2.productAsin) = [r2] ∧
    (insert_product (insert_product db r1) r2).products.countP
        (fun p => p.productAsin == r2.productAsin) = 1 := by
  have key : (insert_product (insert_product db r1) r2).products.filter
      (fun p => p.productAsin == r2.productAsin) = [r2] := by
    simp only [insert_product, h]
    rw [List.filter_append, List.filter_append, List.filter_filter]
    simp
  refine ⟨key, ?_⟩
  rw [List.countP_eq_length_filter, key]
  rfl

/-- First write of the C5 witness. -/
def productWriteA : ProductRow :=
  ⟨"B0TEST", some "Widget", some "Acme", some 100, some 120, some "17%",
    some "In Stock", some 4, some 10, some "AcmeStore", none, none,
    some "2024-01-01", 50⟩

/-- Second write of the C5 witness: same id, every field different. -/
def productWriteB : ProductRow :=
  ⟨"B0TEST", some "Widget v2", some "Acme Corp", some 90, none, none,
    some "Out of Stock", some ((7 : ℚ) / 2), some 11, none, none, none,
    some "2024-02-02", 60⟩

/-- Witness for C5: upserting `productWriteA` then `productWriteB`
(same ASIN) leaves exactly the single row `productWriteB`. -/
theorem insert_product_last_write_wins_witness :
    (insert_product (insert_product ⟨[], [], []⟩ productWriteA)
        productWriteB).products.filter
        (fun p => p.productAsin == productWriteB.productAsin) = [productWriteB] ∧
    (insert_product (insert_product ⟨[], [], []⟩ productWriteA)
        productWriteB).products.countP
        (fun p => p.productAsin == productWriteB.productAsin) = 1 :=
  insert_product_last_write_wins ⟨[], [], []⟩ productWriteA productWriteB rfl

/-! ## AmazonScraper theorems -/

/-- Characterisation of the pagination loop from an arbitrary start
page `p`: it consumes some longest prefix of `k ≤ n` consecutive
fetchable non-empty pages, stops there (if it stopped early, the next
page failed to fetch or had zero review blocks), and returns their
parsed reviews concatenated in order. -/
theorem scrapeReviewsAux_spec {α : Type} (pages : Nat → Option (List (Option α))) :
    ∀ n p, ∃ k, k ≤ n ∧
      (∀ i, p ≤ i → i < p + k → ∃ divs, pages i = some divs ∧ divs ≠ []) ∧
      (k < n → pages (p + k) = none ∨ pages (p + k) = some []) ∧
      scrapeReviewsAux pages p n =
        ((List.range k).map (fun j => pageReviews (pages (p + j)))).flatten := by
  intro n
  induction n with
  | zero =>
    intro p
    exact ⟨0, le_rfl, by omega, by omega, rfl⟩
  | succ m ih =>
    intro p
    cases hp : pages p with
    | none =>
      refine ⟨0, Nat.zero_le _, by omega, ?_, ?_⟩
      · intro _
        left
        rw [Nat.add_zero, hp]
      · simp [scrapeReviewsAux, hp]
    | some divs =>
      cases hdivs : divs with
      | nil =>
        refine ⟨0, Nat.zero_le _, by omega, ?_, ?_⟩
        · intro _
          right
          rw [Nat.add_zero, hp, hdivs]
        · simp [scrapeReviewsAux, hp, hdivs]
      | cons d ds =>
        obtain ⟨k, hk, hgood, hstop, heq⟩ := ih (p + 1)
        refine ⟨k + 1, by omega, ?_, ?_, ?_⟩
        · intro i h1 h2
          by_cases hi : i = p
          · subst hi
            exact ⟨divs, hp, by rw [hdivs]; simp⟩
          · exact hgood i (by omega) (by omega)
        · intro hlt
          have hs := hstop (by omega)
          rw [show p + (k + 1) = p + 1 + k by omega]
          exact hs
        · have hstep : scrapeReviewsAux pages p (m + 1) =
              divs.filterMap id ++ scrapeReviewsAux pages (p + 1) m := by
            simp [scrapeReviewsAux, hp, hdivs]
          rw [hstep, heq, List.range_succ_eq_map, List.map_cons, List.flatten_cons]
          congr 1
          · simp [pageReviews, hp]
          · rw [List.map_map]
            congr 1
            apply List.map_congr_left
            intro j hj
            simp only [Function.comp]
            rw [show p + 1 + j = p + (j + 1) from by omega]

/-- C8: `scrape_reviews` fetches pages sequentially from page 1 and
stops at the first page that fails to fetch or yields zero review
blocks, or after `maxPages` pages, whichever comes first; it returns
the reviews collected up to that point (partial success — the function
is total, a first page with zero review blocks gives `[]`).
-/
theorem scrape_reviews_pagination {α : Type} (pages : Nat → Option (List (Option α)))
    (maxPages : Nat) :
    (pages 1 = some [] → scrape_reviews pages maxPages = []) ∧
    (pages 1 = none → scrape_reviews pages maxPages = []) ∧
    ∃ k, k ≤ maxPages ∧
      (∀ i, 1 ≤ i → i ≤ k → ∃ divs, pages i = some divs ∧ divs ≠ []) ∧
      (k < maxPages → pages (k + 1) = none ∨ pages (k + 1) = some []) ∧
      scrape_reviews pages maxPages =
        ((List.range k).map (fun j => pageReviews (pages (j + 1)))).flatten := by
  refine ⟨?_, ?_, ?_⟩
  · intro h
    cases maxPages with
    | zero => rfl
    | succ m => simp [scrape_reviews, scrapeReviewsAux, h]
  · intro h
    cases maxPages with
    | zero => rfl
    | succ m => simp [scrape_reviews, scrapeReviewsAux, h]
  · obtain ⟨k, hk, hgood, hstop, heq⟩ := scrapeReviewsAux_spec pages maxPages 1
    refine ⟨k, hk, ?_, ?_, ?_⟩
    · intro i h1 h2
      exact hgood i h1 (by omega)
    · intro hlt
      have hs := hstop hlt
      rw [show (1 : Nat) + k = k + 1 by omega] at hs
      exact hs
    · unfold scrape_reviews
      rw [heq]
      congr 1
      apply List.map_congr_left
      intro j hj
      rw [Nat.add_comm]

/-- Witness for C8: a source whose first page has zero review blocks
returns the empty list, and so does one whose first page fails to
fetch. -/
theorem scrape_reviews_pagination_witness :
    scrape_reviews (fun _ => some ([] : List (Option Nat))) 10 = [] ∧
    scrape_reviews (fun _ => (none : Option (List (Option Nat)))) 10 = [] :=
  ⟨(scrape_reviews_pagination (fun _ => some ([] : List (Option Nat))) 10).1 rfl,
   (scrape_reviews_pagination (fun _ => (none : Option (List (Option Nat)))) 10).2.1 rfl⟩

end CompetitorTracker
